import Mathlib

/-!
# expo-chroma-key-camera: the chroma-key fragment shader and the image-picker handler

A shallow embedding of `src/App.js`:

* `ChromaKeyMaterial.fragmentShader` (App.js lines 164-172), the per-pixel compositor;
* `getImageAsync` (lines 129-138), `ImageButton`'s `onPress` (lines 98-101) and the
  `onImage` handler of `App` (lines 82-87).

The shader is written once, over an arbitrary scalar type `F` that carries the
arithmetic the GLSL source uses (`-`, `+`, `*`, decimal literals) and a square-root
function passed as an argument, so the definitions stay executable.  The theorems
read the arithmetic in the real numbers, with `Real.sqrt` for the square root.
-/

namespace ChromaKey

/-! ## GLSL vectors -/

/-- GLSL `vec2`, here only used for the texture coordinate `vUv`. -/
structure Vec2 (F : Type) where
  x : F
  y : F

/-- GLSL `vec3`, with the colour accessors `r`, `g`, `b`. -/
structure Vec3 (F : Type) where
  r : F
  g : F
  b : F

/-- GLSL `vec4`, with the colour accessors `r`, `g`, `b`, `a`. -/
structure Vec4 (F : Type) where
  r : F
  g : F
  b : F
  a : F

/-- GLSL swizzle `.rgb` of a `vec4`. -/
def Vec4.rgb {F : Type} (v : Vec4 F) : Vec3 F :=
  ⟨v.r, v.g, v.b⟩

/-- GLSL constructor `vec4(v, a)` from a `vec3` and a scalar. -/
def vec4 {F : Type} (v : Vec3 F) (a : F) : Vec4 F :=
  ⟨v.r, v.g, v.b, a⟩

/-- GLSL component-wise subtraction of two `vec3`. -/
def Vec3.sub {F : Type} [Sub F] (u v : Vec3 F) : Vec3 F :=
  ⟨u.r - v.r, u.g - v.g, u.b - v.b⟩

instance {F : Type} [Sub F] : Sub (Vec3 F) := ⟨Vec3.sub⟩

/-- GLSL `dot(u, v)` on `vec3`. -/
def dot {F : Type} [Add F] [Mul F] (u v : Vec3 F) : F :=
  u.r * v.r + u.g * v.g + u.b * v.b

/-- GLSL `length(v)` on `vec3`: the square root of `dot(v, v)`. -/
def length {F : Type} [Add F] [Mul F] (sqrt : F → F) (v : Vec3 F) : F :=
  sqrt (dot v v)

/-- A `sampler2D`: the bound texture, as the map from a coordinate to a texel. -/
abbrev Sampler2D (F : Type) := Vec2 F → Vec4 F

/-- GLSL `texture2D(sampler, coord)`. -/
def texture2D {F : Type} (sampler : Sampler2D F) (coord : Vec2 F) : Vec4 F :=
  sampler coord

/-! ## The fragment shader of `ChromaKeyMaterial` (App.js lines 164-172) -/

/-- The right-hand side of App.js line 170, as a function of the frame sample `tColor`
and the uniform `color`:

    (length(tColor - color) - 0.5) * 7.0
-/
def alpha {F : Type} [Add F] [Sub F] [Mul F] [OfScientific F]
    (sqrt : F → F) (tColor color : Vec3 F) : F :=
  (length sqrt (tColor - color) - 0.5) * 7.0

/-- The body of `main` in `ChromaKeyMaterial.fragmentShader`; the result is the value
written to `gl_FragColor`.  The uniforms `video_texture` and `color` and the varying
`vUv` are the arguments.

    mediump vec3 tColor = texture2D(video_texture, vUv).rgb;
    mediump float a = (length(tColor - color) - 0.5) * 7.0;
    gl_FragColor = vec4(tColor, a);
-/
def fragmentShader {F : Type} [Add F] [Sub F] [Mul F] [OfScientific F]
    (sqrt : F → F) (video_texture : Sampler2D F) (color : Vec3 F) (vUv : Vec2 F) : Vec4 F :=
  let tColor : Vec3 F := (texture2D video_texture vUv).rgb
  let a : F := alpha sqrt tColor color
  vec4 tColor a

/-- The key colour `App.onContextCreate` passes to the material (App.js line 44):
`new Color("#ffffff")`, whose channels are all `1`. -/
def keyWhite {F : Type} [OfScientific F] : Vec3 F :=
  ⟨1.0, 1.0, 1.0⟩

/-- Modelled from the spec: the clamp of alpha to `[0,1]` that the rendering pipeline
consuming `gl_FragColor` applies ("the consuming rendering pipeline is expected to clamp
alpha to [0,1]"); the shader source has no clamp.  Written as GLSL `clamp(x, 0.0, 1.0)`,
that is `min(max(x, 0.0), 1.0)`. -/
def clamp01 {F : Type} [Min F] [Max F] [OfScientific F] (x : F) : F :=
  min (max x 0.0) 1.0

/-! ## The image picker: `getImageAsync`, `ImageButton.onPress`, `App.onImage`

The two host calls (`Permissions.askAsync`, `ImagePicker.launchImageLibraryAsync`) are
answered by a `Host` record.  Every function returns, next to its JavaScript result, the
list of calls it made, in order, so that "calls neither `setImage` nor `setBackground`" is
a statement about that list.  `await` is sequencing: the texture load inside
`setBackground` is taken to have resolved when the handler is done. -/

/-- The JavaScript values that `result.uri` and the return value of `getImageAsync` range
over: `undefined`, or a string. -/
inductive JsValue where
  | undefined
  | string (s : String)
  deriving DecidableEq, Repr

/-- JavaScript truthiness, as tested by `if (uri)`: `undefined` and the empty string are
falsy, every other string is truthy. -/
def JsValue.truthy : JsValue → Bool
  | JsValue.undefined => false
  | JsValue.string s => s != ""

/-- What the `image` state of `App` holds: the bundled `asset` (App.js line 8), or an
object `{ uri }`. -/
inductive ImageSource where
  | asset
  | uriObject (uri : JsValue)
  deriving DecidableEq, Repr

/-- The state the handler can change: the `image` state of `App` (line 21) and
`scene.background` (`none` is the `null` background of a fresh `Scene`). -/
structure AppState (Texture : Type) where
  image : ImageSource
  background : Option Texture
  deriving DecidableEq, Repr

/-- The calls the handler chain can make. -/
inductive Call where
  | askAsync
  | launchImageLibraryAsync
  | setImage (value : ImageSource)
  | setBackground (asset : JsValue)
  deriving DecidableEq, Repr

/-- What the picker resolves to; only its `uri` field is read. -/
structure ImagePickerResult where
  uri : JsValue
  deriving DecidableEq, Repr

/-- The answers of the host: the `status` field of what `Permissions.askAsync` resolves
to, and what `ImagePicker.launchImageLibraryAsync` resolves to if it is called. -/
structure Host where
  status : String
  result : ImagePickerResult
  deriving DecidableEq, Repr

/-- The function `getImageAsync` of App.js lines 129-138.

    const { status } = await Permissions.askAsync(...);
    if (status !== "granted") return;
    const result = await ImagePicker.launchImageLibraryAsync();
    return result.uri;
-/
def getImageAsync (host : Host) : JsValue × List Call :=
  if host.status ≠ "granted" then
    (JsValue.undefined, [Call.askAsync])
  else
    (host.result.uri, [Call.askAsync, Call.launchImageLibraryAsync])

/-- The state setter `setImage` of `useState` (line 21). -/
def setImage {Texture : Type} (s : AppState Texture) (value : ImageSource) : AppState Texture :=
  { s with image := value }

/-- The function `setBackground` of lines 31-32:
`scene.background = await loadTextureAsync({ asset })`. -/
def setBackground {Texture : Type} (loadTextureAsync : JsValue → Texture)
    (s : AppState Texture) (asset : JsValue) : AppState Texture :=
  { s with background := some (loadTextureAsync asset) }

/-- The `onImage` handler of lines 82-87.

    if (uri) {
      setImage({ uri });
      setBackground(uri);
    }
-/
def onImage {Texture : Type} (loadTextureAsync : JsValue → Texture)
    (s : AppState Texture) (uri : JsValue) : AppState Texture × List Call :=
  if uri.truthy then
    let s1 := setImage s (ImageSource.uriObject uri)
    let s2 := setBackground loadTextureAsync s1 uri
    (s2, [Call.setImage (ImageSource.uriObject uri), Call.setBackground uri])
  else
    (s, [])

/-- The `onPress` handler of `ImageButton`, lines 98-101.

    const uri = await getImageAsync();
    onImage(uri);
-/
def onPress {Texture : Type} (loadTextureAsync : JsValue → Texture)
    (s : AppState Texture) (host : Host) : AppState Texture × List Call :=
  let got := getImageAsync host
  let done := onImage loadTextureAsync s got.1
  (done.1, got.2 ++ done.2)

/-! ## Shared lemmas on the shader, read in the real numbers -/

/-- The squared length of a difference, component by component. -/
theorem dot_sub_self (t c : Vec3 ℝ) :
    dot (t - c) (t - c) = (t.r - c.r) ^ 2 + (t.g - c.g) ^ 2 + (t.b - c.b) ^ 2 := by
  show (t.r - c.r) * (t.r - c.r) + (t.g - c.g) * (t.g - c.g) + (t.b - c.b) * (t.b - c.b) = _
  ring

/-- Line 170 in the reals: `alpha` is seven times the Euclidean norm less a half. -/
theorem alpha_eq (t c : Vec3 ℝ) :
    alpha Real.sqrt t c =
      (Real.sqrt ((t.r - c.r) ^ 2 + (t.g - c.g) ^ 2 + (t.b - c.b) ^ 2) - 0.5) * 7 := by
  have h7 : (7.0 : ℝ) = 7 := by norm_num
  simp only [alpha, length, dot_sub_self, h7]

/-- The sum of squares under the square root is never negative. -/
theorem sumSq_nonneg (t c : Vec3 ℝ) :
    0 ≤ (t.r - c.r) ^ 2 + (t.g - c.g) ^ 2 + (t.b - c.b) ^ 2 := by
  positivity

/-- The clamp sends every alpha that is at most `0` to `0`. -/
theorem clamp01_of_nonpos {x : ℝ} (h : x ≤ 0) : clamp01 x = 0 := by
  have h0 : (0.0 : ℝ) = 0 := by norm_num
  have h1 : (1.0 : ℝ) = 1 := by norm_num
  simp only [clamp01, h0, h1, max_eq_right h]
  exact min_eq_left zero_le_one

/-- The clamp sends every alpha that is at least `1` to `1`. -/
theorem clamp01_of_one_le {x : ℝ} (h : 1 ≤ x) : clamp01 x = 1 := by
  have h0 : (0.0 : ℝ) = 0 := by norm_num
  have h1 : (1.0 : ℝ) = 1 := by norm_num
  simp only [clamp01, h0, h1, max_eq_left (le_trans zero_le_one h)]
  exact min_eq_right h

/-- The GLSL `length` of a difference is the distance of the two colours as points of
Euclidean 3-space. -/
theorem length_sub_eq_dist (t c : Vec3 ℝ) :
    length Real.sqrt (t - c)
      = dist ((WithLp.equiv 2 (Fin 3 → ℝ)).symm ![t.r, t.g, t.b])
          ((WithLp.equiv 2 (Fin 3 → ℝ)).symm ![c.r, c.g, c.b]) := by
  rw [EuclideanSpace.dist_eq]
  simp only [length, dot_sub_self, Fin.sum_univ_three, Real.dist_eq, sq_abs]
  rfl

/-- On a truthy uri, `onImage` stores `{ uri }` as the image, loads the uri as the scene
background, and makes exactly the two calls `setImage` and `setBackground`. -/
theorem onImage_of_truthy {Texture : Type} (loadTextureAsync : JsValue → Texture)
    (s : AppState Texture) (uri : JsValue) (h : uri.truthy = true) :
    onImage loadTextureAsync s uri
      = (⟨ImageSource.uriObject uri, some (loadTextureAsync uri)⟩,
          [Call.setImage (ImageSource.uriObject uri), Call.setBackground uri]) := by
  simp [onImage, h, setImage, setBackground]

/-- With permission granted, `getImageAsync` opens the picker and returns its `uri`. -/
theorem getImageAsync_of_granted (host : Host) (h : host.status = "granted") :
    getImageAsync host = (host.result.uri, [Call.askAsync, Call.launchImageLibraryAsync]) := by
  simp [getImageAsync, h]

/-! ## The claims on the fragment shader -/

/-- C1: for every frame sample `t` and key colour `c` over the reals, the alpha the
fragment shader writes is line 170 evaluated at the texel it sampled, and that value is
`(sqrt((t.r-c.r)^2 + (t.g-c.g)^2 + (t.b-c.b)^2) - 0.5) * 7`.  The shader does not clamp
it: when the key colour is the sampled texel itself, the alpha written is `-3.5`. -/
theorem fragmentShader_alpha_formula (video_texture : Sampler2D ℝ) (vUv : Vec2 ℝ)
    (t c : Vec3 ℝ) :
    (fragmentShader Real.sqrt video_texture c vUv).a
        = alpha Real.sqrt (texture2D video_texture vUv).rgb c
      ∧ alpha Real.sqrt t c
        = (Real.sqrt ((t.r - c.r) ^ 2 + (t.g - c.g) ^ 2 + (t.b - c.b) ^ 2) - 0.5) * 7
      ∧ (fragmentShader Real.sqrt video_texture (texture2D video_texture vUv).rgb vUv).a
        = -3.5 := by
  refine ⟨rfl, alpha_eq t c, ?_⟩
  show alpha Real.sqrt (texture2D video_texture vUv).rgb (texture2D video_texture vUv).rgb = _
  rw [alpha_eq]
  norm_num

/-- C2: for every scalar type, square root, texture, coordinate and key colour, the RGB
part of the shader output is exactly the sampled texel's RGB: it depends neither on the
key colour nor on the computed alpha. -/
theorem fragmentShader_rgb {F : Type} [Add F] [Sub F] [Mul F] [OfScientific F]
    (sqrt : F → F) (video_texture : Sampler2D F) (color : Vec3 F) (vUv : Vec2 F) :
    (fragmentShader sqrt video_texture color vUv).rgb = (texture2D video_texture vUv).rgb :=
  rfl

/-- C4: the pre-clamp alpha is strictly monotonic in colour distance: for every key
colour `c` and samples `A`, `B`, if `A` is closer to `c` than `B` is, then the alpha of
`A` is strictly less than the alpha of `B`. -/
theorem alpha_lt_of_distance_lt (c A B : Vec3 ℝ)
    (h : Real.sqrt ((A.r - c.r) ^ 2 + (A.g - c.g) ^ 2 + (A.b - c.b) ^ 2)
        < Real.sqrt ((B.r - c.r) ^ 2 + (B.g - c.g) ^ 2 + (B.b - c.b) ^ 2)) :
    alpha Real.sqrt A c < alpha Real.sqrt B c := by
  rw [alpha_eq, alpha_eq]
  linarith

/-- Witness for C4: key black, sample `A` black (distance 0), sample `B` red (distance 1). -/
theorem alpha_lt_of_distance_lt_witness :
    alpha Real.sqrt (⟨0, 0, 0⟩ : Vec3 ℝ) ⟨0, 0, 0⟩
      < alpha Real.sqrt (⟨1, 0, 0⟩ : Vec3 ℝ) ⟨0, 0, 0⟩ :=
  alpha_lt_of_distance_lt ⟨0, 0, 0⟩ ⟨0, 0, 0⟩ ⟨1, 0, 0⟩ (by norm_num)

/-- C5: for every key colour `c`, a frame sample equal to `c` has colour distance `0`
and pre-clamp alpha exactly `-3.5`, which the clamp to `[0,1]` sends to `0`. -/
theorem alpha_at_key (c : Vec3 ℝ) :
    Real.sqrt ((c.r - c.r) ^ 2 + (c.g - c.g) ^ 2 + (c.b - c.b) ^ 2) = 0
      ∧ length Real.sqrt (c - c) = 0
      ∧ alpha Real.sqrt c c = -3.5
      ∧ clamp01 (alpha Real.sqrt c c) = 0 := by
  have hd : Real.sqrt ((c.r - c.r) ^ 2 + (c.g - c.g) ^ 2 + (c.b - c.b) ^ 2) = 0 := by
    simp
  have ha : alpha Real.sqrt c c = -3.5 := by
    rw [alpha_eq, hd]
    norm_num
  refine ⟨hd, ?_, ha, ?_⟩
  · simp only [length, dot_sub_self, hd]
  · apply clamp01_of_nonpos
    rw [ha]
    norm_num

/-- C6: the transition band.  A colour distance below `0.5` gives a negative pre-clamp
alpha; a distance of at most `0.5` gives an alpha that clamps to `0`; a distance of at
least `0.5 + 1/7` gives a pre-clamp alpha of at least `1`, which clamps to `1`. -/
theorem transition_band (t c : Vec3 ℝ) :
    (Real.sqrt ((t.r - c.r) ^ 2 + (t.g - c.g) ^ 2 + (t.b - c.b) ^ 2) < 0.5 →
        alpha Real.sqrt t c < 0)
      ∧ (Real.sqrt ((t.r - c.r) ^ 2 + (t.g - c.g) ^ 2 + (t.b - c.b) ^ 2) ≤ 0.5 →
        clamp01 (alpha Real.sqrt t c) = 0)
      ∧ (0.5 + 1 / 7 ≤ Real.sqrt ((t.r - c.r) ^ 2 + (t.g - c.g) ^ 2 + (t.b - c.b) ^ 2) →
        1 ≤ alpha Real.sqrt t c ∧ clamp01 (alpha Real.sqrt t c) = 1) := by
  refine ⟨?_, ?_, ?_⟩
  · intro h
    rw [alpha_eq]
    linarith
  · intro h
    apply clamp01_of_nonpos
    rw [alpha_eq]
    linarith
  · intro h
    have h1 : 1 ≤ alpha Real.sqrt t c := by
      rw [alpha_eq]
      linarith
    exact ⟨h1, clamp01_of_one_le h1⟩

/-- Witness for C6: with key black, the sample black is inside the band (distance 0) and
the sample red is outside it (distance 1). -/
theorem transition_band_witness :
    alpha Real.sqrt (⟨0, 0, 0⟩ : Vec3 ℝ) ⟨0, 0, 0⟩ < 0
      ∧ clamp01 (alpha Real.sqrt (⟨0, 0, 0⟩ : Vec3 ℝ) ⟨0, 0, 0⟩) = 0
      ∧ 1 ≤ alpha Real.sqrt (⟨1, 0, 0⟩ : Vec3 ℝ) ⟨0, 0, 0⟩
      ∧ clamp01 (alpha Real.sqrt (⟨1, 0, 0⟩ : Vec3 ℝ) ⟨0, 0, 0⟩) = 1 :=
  ⟨(transition_band ⟨0, 0, 0⟩ ⟨0, 0, 0⟩).1 (by norm_num),
   (transition_band ⟨0, 0, 0⟩ ⟨0, 0, 0⟩).2.1 (by norm_num),
   ((transition_band ⟨1, 0, 0⟩ ⟨0, 0, 0⟩).2.2 (by norm_num)).1,
   ((transition_band ⟨1, 0, 0⟩ ⟨0, 0, 0⟩).2.2 (by norm_num)).2⟩

/-- C8: for every sample and key colour whose colour distance is exactly `0.5`, the
pre-clamp alpha is exactly `0`. -/
theorem alpha_zero_at_half (t c : Vec3 ℝ)
    (h : Real.sqrt ((t.r - c.r) ^ 2 + (t.g - c.g) ^ 2 + (t.b - c.b) ^ 2) = 0.5) :
    alpha Real.sqrt t c = 0 := by
  rw [alpha_eq, h]
  norm_num

/-- Witness for C8: key black and sample `(0.5, 0, 0)`, at distance exactly `0.5`. -/
theorem alpha_zero_at_half_witness :
    alpha Real.sqrt (⟨0.5, 0, 0⟩ : Vec3 ℝ) ⟨0, 0, 0⟩ = 0 :=
  alpha_zero_at_half ⟨0.5, 0, 0⟩ ⟨0, 0, 0⟩ (by
    have h : ((0.5 : ℝ) - 0) ^ 2 + (0 - 0) ^ 2 + (0 - 0) ^ 2 = 0.5 ^ 2 := by norm_num
    show Real.sqrt (((0.5 : ℝ) - 0) ^ 2 + (0 - 0) ^ 2 + (0 - 0) ^ 2) = 0.5
    rw [h]
    exact Real.sqrt_sq (by norm_num))

/-- C10: for every frame sample `t` and key colour `c` over the reals, the pre-clamp
alpha is at least `-3.5`, it equals `-3.5` exactly when `t = c`, and it is symmetric in
its two arguments. -/
theorem alpha_lower_bound_and_symm (t c : Vec3 ℝ) :
    -3.5 ≤ alpha Real.sqrt t c
      ∧ (alpha Real.sqrt t c = -3.5 ↔ t = c)
      ∧ alpha Real.sqrt t c = alpha Real.sqrt c t := by
  have hnn := Real.sqrt_nonneg ((t.r - c.r) ^ 2 + (t.g - c.g) ^ 2 + (t.b - c.b) ^ 2)
  refine ⟨?_, ?_, ?_⟩
  · rw [alpha_eq]
    linarith
  · rw [alpha_eq]
    constructor
    · intro h
      have h0 : Real.sqrt ((t.r - c.r) ^ 2 + (t.g - c.g) ^ 2 + (t.b - c.b) ^ 2) = 0 := by
        linarith
      rw [Real.sqrt_eq_zero (sumSq_nonneg t c)] at h0
      have hr : t.r - c.r = 0 := by
        have := sq_nonneg (t.r - c.r)
        have := sq_nonneg (t.g - c.g)
        have := sq_nonneg (t.b - c.b)
        exact pow_eq_zero_iff (two_ne_zero) |>.mp (by linarith)
      have hg : t.g - c.g = 0 := by
        have := sq_nonneg (t.r - c.r)
        have := sq_nonneg (t.g - c.g)
        have := sq_nonneg (t.b - c.b)
        exact pow_eq_zero_iff (two_ne_zero) |>.mp (by linarith)
      have hb : t.b - c.b = 0 := by
        have := sq_nonneg (t.r - c.r)
        have := sq_nonneg (t.g - c.g)
        have := sq_nonneg (t.b - c.b)
        exact pow_eq_zero_iff (two_ne_zero) |>.mp (by linarith)
      cases t
      cases c
      simp only [Vec3.mk.injEq]
      simp only at hr hg hb
      exact ⟨by linarith, by linarith, by linarith⟩
    · intro h
      subst h
      simp
      norm_num
  · rw [alpha_eq, alpha_eq]
    have hs : (t.r - c.r) ^ 2 + (t.g - c.g) ^ 2 + (t.b - c.b) ^ 2
        = (c.r - t.r) ^ 2 + (c.g - t.g) ^ 2 + (c.b - t.b) ^ 2 := by ring
    rw [hs]

/-- Decimal bounds on the square root of three. -/
theorem sqrt_three_bounds : 1.7320 < Real.sqrt 3 ∧ Real.sqrt 3 < 1.7321 := by
  constructor
  · rw [Real.lt_sqrt (by norm_num)]
    norm_num
  · rw [Real.sqrt_lt' (by norm_num)]
    norm_num

/-- The colour distance from a grey `(g, g, g)` with `g ≤ 1` to white. -/
theorem grey_distance (g : ℝ) (hg : g ≤ 1) :
    Real.sqrt ((g - 1) ^ 2 + (g - 1) ^ 2 + (g - 1) ^ 2) = Real.sqrt 3 * (1 - g) := by
  have h : (g - 1) ^ 2 + (g - 1) ^ 2 + (g - 1) ^ 2 = 3 * (1 - g) ^ 2 := by ring
  rw [h, Real.sqrt_mul (by norm_num), Real.sqrt_sq (by linarith)]

/-- The channels of the default key colour are all `1`. -/
theorem keyWhite_channels :
    (keyWhite : Vec3 ℝ).r = 1 ∧ (keyWhite : Vec3 ℝ).g = 1 ∧ (keyWhite : Vec3 ℝ).b = 1 := by
  refine ⟨?_, ?_, ?_⟩ <;> simp only [keyWhite] <;> norm_num

/-- The pre-clamp alpha of a grey `(g, g, g)` with `g ≤ 1` against the white key. -/
theorem grey_alpha (g : ℝ) (hg : g ≤ 1) :
    alpha Real.sqrt (⟨g, g, g⟩ : Vec3 ℝ) keyWhite = (Real.sqrt 3 * (1 - g) - 0.5) * 7 := by
  rw [alpha_eq, keyWhite_channels.1, keyWhite_channels.2.1, keyWhite_channels.2.2,
    grey_distance g hg]

/-- C7: for every frame sample and key colour whose channels all lie in `[0,1]`, the
colour distance the shader computes, `length(tColor - color)`, is the square root of the
sum of the squared channel differences and lies in `[0, sqrt 3]`, so that the pre-clamp
alpha, seven times that distance less a half, lies in `[-3.5, (sqrt 3 - 0.5) * 7]`; and
with the white key, the black sample is at distance exactly `sqrt 3`, its pre-clamp alpha
is `(sqrt 3 - 0.5) * 7`, which is greater than `1`, within `0.005` of `8.62`, and clamps
to `1`. -/
theorem distance_range_and_extreme (t c : Vec3 ℝ)
    (htr : 0 ≤ t.r ∧ t.r ≤ 1) (htg : 0 ≤ t.g ∧ t.g ≤ 1) (htb : 0 ≤ t.b ∧ t.b ≤ 1)
    (hcr : 0 ≤ c.r ∧ c.r ≤ 1) (hcg : 0 ≤ c.g ∧ c.g ≤ 1) (hcb : 0 ≤ c.b ∧ c.b ≤ 1) :
    (length Real.sqrt (t - c)
          = Real.sqrt ((t.r - c.r) ^ 2 + (t.g - c.g) ^ 2 + (t.b - c.b) ^ 2)
        ∧ 0 ≤ length Real.sqrt (t - c)
        ∧ length Real.sqrt (t - c) ≤ Real.sqrt 3
        ∧ alpha Real.sqrt t c = (length Real.sqrt (t - c) - 0.5) * 7
        ∧ -3.5 ≤ alpha Real.sqrt t c
        ∧ alpha Real.sqrt t c ≤ (Real.sqrt 3 - 0.5) * 7)
      ∧ length Real.sqrt ((⟨0, 0, 0⟩ : Vec3 ℝ) - keyWhite) = Real.sqrt 3
      ∧ alpha Real.sqrt (⟨0, 0, 0⟩ : Vec3 ℝ) keyWhite = (Real.sqrt 3 - 0.5) * 7
      ∧ 1 < alpha Real.sqrt (⟨0, 0, 0⟩ : Vec3 ℝ) keyWhite
      ∧ |alpha Real.sqrt (⟨0, 0, 0⟩ : Vec3 ℝ) keyWhite - 8.62| < 0.005
      ∧ clamp01 (alpha Real.sqrt (⟨0, 0, 0⟩ : Vec3 ℝ) keyWhite) = 1 := by
  obtain ⟨hlo, hhi⟩ := sqrt_three_bounds
  have hlen : length Real.sqrt (t - c)
      = Real.sqrt ((t.r - c.r) ^ 2 + (t.g - c.g) ^ 2 + (t.b - c.b) ^ 2) := by
    simp only [length, dot_sub_self]
  have hnn : 0 ≤ length Real.sqrt (t - c) := by
    rw [hlen]
    exact Real.sqrt_nonneg _
  have hle : length Real.sqrt (t - c) ≤ Real.sqrt 3 := by
    rw [hlen]
    apply Real.sqrt_le_sqrt
    have h1 : (t.r - c.r) ^ 2 ≤ 1 := by nlinarith [htr.1, htr.2, hcr.1, hcr.2]
    have h2 : (t.g - c.g) ^ 2 ≤ 1 := by nlinarith [htg.1, htg.2, hcg.1, hcg.2]
    have h3 : (t.b - c.b) ^ 2 ≤ 1 := by nlinarith [htb.1, htb.2, hcb.1, hcb.2]
    linarith
  have halpha : alpha Real.sqrt t c = (length Real.sqrt (t - c) - 0.5) * 7 := by
    rw [alpha_eq, hlen]
  have hblack : alpha Real.sqrt (⟨0, 0, 0⟩ : Vec3 ℝ) keyWhite = (Real.sqrt 3 - 0.5) * 7 := by
    rw [grey_alpha 0 (by norm_num)]
    norm_num
  have hgt : 1 < alpha Real.sqrt (⟨0, 0, 0⟩ : Vec3 ℝ) keyWhite := by
    rw [hblack]
    linarith
  refine ⟨⟨hlen, hnn, hle, halpha, ?_, ?_⟩, ?_, hblack, hgt, ?_,
    clamp01_of_one_le (le_of_lt hgt)⟩
  · rw [halpha]
    linarith
  · rw [halpha]
    linarith
  · simp only [length, dot_sub_self]
    rw [keyWhite_channels.1, keyWhite_channels.2.1, keyWhite_channels.2.2]
    norm_num
  · rw [hblack, abs_lt]
    constructor <;> linarith

/-- Witness for C7: sample `(0.5, 0.5, 0.5)` against the black key; the distance the
shader computes is at most `sqrt 3` and its alpha lies in `[-3.5, (sqrt 3 - 0.5) * 7]`. -/
theorem distance_range_and_extreme_witness :
    ((0 : ℝ) ≤ 0.5 ∧ (0.5 : ℝ) ≤ 1)
      ∧ 0 ≤ length Real.sqrt ((⟨0.5, 0.5, 0.5⟩ : Vec3 ℝ) - ⟨0, 0, 0⟩)
      ∧ length Real.sqrt ((⟨0.5, 0.5, 0.5⟩ : Vec3 ℝ) - ⟨0, 0, 0⟩) ≤ Real.sqrt 3
      ∧ -3.5 ≤ alpha Real.sqrt (⟨0.5, 0.5, 0.5⟩ : Vec3 ℝ) ⟨0, 0, 0⟩
      ∧ alpha Real.sqrt (⟨0.5, 0.5, 0.5⟩ : Vec3 ℝ) ⟨0, 0, 0⟩ ≤ (Real.sqrt 3 - 0.5) * 7 :=
  have h := (distance_range_and_extreme ⟨0.5, 0.5, 0.5⟩ ⟨0, 0, 0⟩
    (by norm_num) (by norm_num) (by norm_num)
    (by norm_num) (by norm_num) (by norm_num)).1
  ⟨by norm_num, h.2.1, h.2.2.1, h.2.2.2.2.1, h.2.2.2.2.2⟩

/-- C9: with the default white key, every grey sample `(g, g, g)` with `g ≤ 1` has
colour distance `sqrt 3 * (1 - g)` and pre-clamp alpha `(sqrt 3 * (1 - g) - 0.5) * 7`.
For `g = 0.9` the distance is `sqrt 0.03`, within `0.0005` of `0.173`, and the alpha is
within `0.005` of `-2.29` and clamps to `0`; for `g = 0.2` the distance is within
`0.0005` of `1.386`, and the alpha is within `0.05` of `6.2` and clamps to `1`. -/
theorem grey_on_white (g : ℝ) (hg : g ≤ 1) :
    Real.sqrt ((g - (keyWhite : Vec3 ℝ).r) ^ 2 + (g - (keyWhite : Vec3 ℝ).g) ^ 2
        + (g - (keyWhite : Vec3 ℝ).b) ^ 2) = Real.sqrt 3 * (1 - g)
      ∧ alpha Real.sqrt (⟨g, g, g⟩ : Vec3 ℝ) keyWhite = (Real.sqrt 3 * (1 - g) - 0.5) * 7
      ∧ Real.sqrt ((0.9 - (keyWhite : Vec3 ℝ).r) ^ 2 + (0.9 - (keyWhite : Vec3 ℝ).g) ^ 2
          + (0.9 - (keyWhite : Vec3 ℝ).b) ^ 2) = Real.sqrt 0.03
      ∧ |Real.sqrt 0.03 - 0.173| < 0.0005
      ∧ |alpha Real.sqrt (⟨0.9, 0.9, 0.9⟩ : Vec3 ℝ) keyWhite - (-2.29)| < 0.005
      ∧ clamp01 (alpha Real.sqrt (⟨0.9, 0.9, 0.9⟩ : Vec3 ℝ) keyWhite) = 0
      ∧ |Real.sqrt ((0.2 - (keyWhite : Vec3 ℝ).r) ^ 2 + (0.2 - (keyWhite : Vec3 ℝ).g) ^ 2
          + (0.2 - (keyWhite : Vec3 ℝ).b) ^ 2) - 1.386| < 0.0005
      ∧ |alpha Real.sqrt (⟨0.2, 0.2, 0.2⟩ : Vec3 ℝ) keyWhite - 6.2| < 0.05
      ∧ clamp01 (alpha Real.sqrt (⟨0.2, 0.2, 0.2⟩ : Vec3 ℝ) keyWhite) = 1 := by
  obtain ⟨hlo, hhi⟩ := sqrt_three_bounds
  have h9 : alpha Real.sqrt (⟨0.9, 0.9, 0.9⟩ : Vec3 ℝ) keyWhite
      = (Real.sqrt 3 * (1 - 0.9) - 0.5) * 7 := grey_alpha 0.9 (by norm_num)
  have h2 : alpha Real.sqrt (⟨0.2, 0.2, 0.2⟩ : Vec3 ℝ) keyWhite
      = (Real.sqrt 3 * (1 - 0.2) - 0.5) * 7 := grey_alpha 0.2 (by norm_num)
  have hsum9 : ((0.9 : ℝ) - 1) ^ 2 + (0.9 - 1) ^ 2 + (0.9 - 1) ^ 2 = 0.03 := by norm_num
  have hd9 : Real.sqrt 0.03 = Real.sqrt 3 * (1 - 0.9) := by
    rw [← hsum9]
    exact grey_distance 0.9 (by norm_num)
  rw [keyWhite_channels.1, keyWhite_channels.2.1, keyWhite_channels.2.2]
  refine ⟨grey_distance g hg, grey_alpha g hg, ?_, ?_, ?_, ?_, ?_, ?_, ?_⟩
  · rw [hsum9]
  · rw [hd9, abs_lt]
    constructor <;> linarith
  · rw [h9, abs_lt]
    constructor <;> linarith
  · apply clamp01_of_nonpos
    rw [h9]
    linarith
  · rw [grey_distance 0.2 (by norm_num), abs_lt]
    constructor <;> linarith
  · rw [h2, abs_lt]
    constructor <;> linarith
  · apply clamp01_of_one_le
    rw [h2]
    linarith

/-- Witness for C9: the mid grey `g = 0.5`. -/
theorem grey_on_white_witness :
    (0.5 : ℝ) ≤ 1
      ∧ alpha Real.sqrt (⟨0.5, 0.5, 0.5⟩ : Vec3 ℝ) keyWhite
        = (Real.sqrt 3 * (1 - 0.5) - 0.5) * 7 :=
  ⟨by norm_num, (grey_on_white 0.5 (by norm_num)).2.1⟩

/-! ## The claim on the image picker -/

/-- C3: cancellation and permission denial are no-ops.  For every prior state, if the
permission status is not "granted" or the picker result carries no uri, `getImageAsync`
returns `undefined`, and the handler chain leaves the state as it was and calls neither
`setImage` nor `setBackground`; and `onImage` does anything at all only on a truthy uri. -/
theorem picker_cancel_or_denial_noop {Texture : Type} (loadTextureAsync : JsValue → Texture)
    (s : AppState Texture) (host : Host)
    (h : host.status ≠ "granted" ∨ host.result.uri = JsValue.undefined) :
    (getImageAsync host).1 = JsValue.undefined
      ∧ onImage loadTextureAsync s (getImageAsync host).1 = (s, [])
      ∧ (onPress loadTextureAsync s host).1 = s
      ∧ (∀ c ∈ (onPress loadTextureAsync s host).2,
          c = Call.askAsync ∨ c = Call.launchImageLibraryAsync)
      ∧ (∀ uri : JsValue, onImage loadTextureAsync s uri ≠ (s, []) → uri.truthy = true) := by
  have hret : (getImageAsync host).1 = JsValue.undefined := by
    unfold getImageAsync
    by_cases hs : host.status ≠ "granted"
    · simp [hs]
    · rcases h with h | h
      · exact absurd h hs
      · simp [hs, h]
  have hcalls : ∀ c ∈ (getImageAsync host).2,
      c = Call.askAsync ∨ c = Call.launchImageLibraryAsync := by
    intro c hc
    unfold getImageAsync at hc
    by_cases hs : host.status ≠ "granted"
    · simp [hs] at hc
      exact Or.inl hc
    · simp [hs] at hc
      exact hc
  have hnoop : onImage loadTextureAsync s JsValue.undefined = (s, []) := by
    simp [onImage, JsValue.truthy]
  refine ⟨hret, ?_, ?_, ?_, ?_⟩
  · rw [hret, hnoop]
  · simp only [onPress, hret, hnoop]
  · intro c hc
    simp only [onPress, hret, hnoop, List.append_nil] at hc
    exact hcalls c hc
  · intro uri hne
    by_contra hf
    apply hne
    simp [onImage, hf]

/-- Witness for C3, permission denied: the picker is not even opened. -/
theorem picker_cancel_or_denial_noop_witness :
    (("denied" : String) ≠ "granted"
        ∨ (JsValue.string "file:///a.jpg") = JsValue.undefined)
      ∧ (getImageAsync ⟨"denied", ⟨JsValue.string "file:///a.jpg"⟩⟩).1 = JsValue.undefined
      ∧ (onPress (fun v => v) (⟨ImageSource.asset, none⟩ : AppState JsValue)
          ⟨"denied", ⟨JsValue.string "file:///a.jpg"⟩⟩).1 = ⟨ImageSource.asset, none⟩ :=
  have h := picker_cancel_or_denial_noop (fun v => v)
    (⟨ImageSource.asset, none⟩ : AppState JsValue)
    ⟨"denied", ⟨JsValue.string "file:///a.jpg"⟩⟩ (Or.inl (by decide))
  ⟨Or.inl (by decide), h.1, h.2.2.1⟩

end ChromaKey
